import Mathlib

/-!
Shallow embedding of `src/examples/monorepo-scopes/services/worker/main.py`.

The script manipulates Python dictionaries with string keys; we embed them
as association lists of string keys and `Value` payloads.  Python exceptions
are embedded with `Except String`: the body of the `try` block in
`process_data` is a computation in `Except`, and the `except` handler turns
an error into the boolean `false` together with a printed message.  Printing
is embedded as a list of emitted lines.
-/

/-- Values stored in a record: strings, numbers, or nested dictionaries
(enough to embed the sample record of the driver block). -/
inductive Value where
  | str : String → Value
  | nat : Nat → Value
  | dict : List (String × Value) → Value

/-- A Python dictionary with string keys, embedded as an association list. -/
abbrev Data := List (String × Value)

/-- Key membership: the embedding of Python's `field in data` on a dict. -/
def Data.containsKey (d : Data) (k : String) : Bool :=
  d.any (fun p => p.1 == k)

/-- Keys of a record, in order. -/
def Data.keys (d : Data) : List String :=
  d.map Prod.fst

/-- Embeds `required_fields = ['id', 'timestamp', 'payload']` from
`validate_data`. -/
def required_fields : List String := ["id", "timestamp", "payload"]

/-- Embeds `validate_data`: `all(field in data for field in required_fields)`. -/
def validate_data (d : Data) : Bool :=
  required_fields.all (fun field => d.containsKey field)

/-- Embeds `store_data`: the body is `pass`, so the call returns `None` (here
`Unit`). -/
def store_data (_ : Data) : Unit := ()

/-- Exception-aware view of `validate_data`: its body contains no `raise` and
no fallible operation, so it always returns normally. -/
def validate_dataE (d : Data) : Except String Bool := .ok (validate_data d)

/-- Exception-aware view of `store_data`: `pass` raises nothing and returns
`None`. -/
def store_dataE (_ : Data) : Except String Unit := .ok ()

/-- The result of running a fragment that can print: the returned boolean and
the lines printed while it ran. -/
structure RunResult where
  ret : Bool
  printed : List String
  deriving Repr

/-- The body of the `try` block of `process_data`, parameterised by the
(possibly failing) steps it calls:
`result = validate_data(data); if result: store_data(data); return True;
return False`. -/
def processBody (validate : Data → Except String Bool)
    (store : Data → Except String Unit) (d : Data) : Except String Bool :=
  match validate d with
  | .error e => .error e
  | .ok result =>
    if result then
      match store d with
      | .error e => .error e
      | .ok _ => .ok true
    else
      .ok false

/-- The `try`/`except Exception` of `process_data`: a normal return of the
body is passed through, and an exception is caught, printed as
`Error processing data: {e}`, and turned into `False`. -/
def process_data_with (validate : Data → Except String Bool)
    (store : Data → Except String Unit) (d : Data) : RunResult :=
  match processBody validate store d with
  | .ok b => ⟨b, []⟩
  | .error e => ⟨false, ["Error processing data: " ++ e]⟩

/-- Embeds `process_data` with its concrete callees `validate_data` and
`store_data`. -/
def process_data (d : Data) : Bool :=
  (process_data_with validate_dataE store_dataE d).ret

/-- Heap-passing view of the three functions, for the frame property: a heap
maps addresses to records, and a function receives the address of its
argument.  No statement of `validate_data` writes to its argument. -/
def validate_dataS (σ : Nat → Data) (a : Nat) : Bool × (Nat → Data) :=
  (validate_data (σ a), σ)

/-- Heap-passing view of `store_data`: `pass` writes nothing. -/
def store_dataS (σ : Nat → Data) (_a : Nat) : Unit × (Nat → Data) :=
  ((), σ)

/-- Heap-passing view of `process_data`: it only reads its argument and
threads the heap through `validate_data` and `store_data`. -/
def process_dataS (σ : Nat → Data) (a : Nat) : Bool × (Nat → Data) :=
  let v := validate_dataS σ a
  if v.1 then
    let s := store_dataS v.2 a
    (true, s.2)
  else
    (false, v.2)

/-- Embeds `sample_data` from the driver block. -/
def sample_data : Data :=
  [("id", .str "123"),
   ("timestamp", .str "2025-01-15T10:00:00Z"),
   ("payload", .dict [("value", .nat 42)])]

/-- Embeds the driver block under `if __name__ == '__main__'`: run
`process_data(sample_data)` and print
`Processing {'succeeded' if success else 'failed'}`.  The result is every
line printed by the script, in order. -/
def main_output : List String :=
  let r := process_data_with validate_dataE store_dataE sample_data
  r.printed ++ ["Processing " ++ (if r.ret then "succeeded" else "failed")]

/-! ## Helper lemmas (shared by several claims) -/

/-- Key membership agrees with membership in the key list. -/
theorem containsKey_iff (d : Data) (k : String) :
    d.containsKey k = true ↔ k ∈ d.keys := by
  simp [Data.containsKey, Data.keys, List.any_eq_true, List.mem_map]

/-- Unfolding of `validate_data` into the three key checks. -/
theorem validate_data_iff (d : Data) :
    validate_data d = true ↔
      (d.containsKey "id" = true ∧ d.containsKey "timestamp" = true ∧
       d.containsKey "payload" = true) := by
  simp [validate_data, required_fields, List.all_cons, List.all_nil,
    Bool.and_eq_true]

/-- With the concrete callees of the script, the try block never throws. -/
theorem processBody_concrete (d : Data) :
    processBody validate_dataE store_dataE d = .ok (validate_data d) := by
  cases h : validate_data d <;>
    simp [processBody, validate_dataE, store_dataE, h]

/-- With the concrete callees, `process_data` returns the validation result. -/
theorem process_data_eq_validate (d : Data) :
    process_data d = validate_data d := by
  simp [process_data, process_data_with, processBody_concrete d]

/-! ## Claim theorems -/

/-- C1: `validate_data d` returns `true` exactly when `d` contains all three
required keys `id`, `timestamp` and `payload`; no other feature of `d`
(values, types, extra keys) affects the result, since the right-hand side
mentions only key membership. -/
theorem C1_validate_data_iff_required_keys (d : Data) :
    validate_data d = true ↔
      (d.containsKey "id" = true ∧ d.containsKey "timestamp" = true ∧
       d.containsKey "payload" = true) :=
  validate_data_iff d

/-- C2: every record holding the three required keys is accepted by
`process_data` (result `true`), and every record missing at least one of
them is rejected (result `false`). -/
theorem C2_process_data_accepts_iff_required (d : Data) :
    ((d.containsKey "id" = true ∧ d.containsKey "timestamp" = true ∧
      d.containsKey "payload" = true) → process_data d = true) ∧
    (¬(d.containsKey "id" = true ∧ d.containsKey "timestamp" = true ∧
      d.containsKey "payload" = true) → process_data d = false) := by
  rw [process_data_eq_validate]
  constructor
  · intro h
    exact (validate_data_iff d).mpr h
  · intro h
    cases hv : validate_data d
    · rfl
    · exact absurd ((validate_data_iff d).mp hv) h

/-- C2 witness: the driver's sample record (all three keys) is accepted and
a record with only the key `id` is rejected. -/
theorem C2_witness :
    process_data sample_data = true ∧
    process_data [("id", Value.str "x")] = false :=
  ⟨(C2_process_data_accepts_iff_required sample_data).1 (by decide),
   (C2_process_data_accepts_iff_required [("id", Value.str "x")]).2 (by decide)⟩

/-- C3: whenever the body of the try block fails with any exception `e`, the
handler of `process_data` catches it and converts it to the return value
`false` together with the printed message `Error processing data: e`;
no exception propagates out of `process_data_with`, whose codomain carries no
error case. -/
theorem C3_exceptions_caught (validate : Data → Except String Bool)
    (store : Data → Except String Unit) (d : Data) (e : String)
    (h : processBody validate store d = .error e) :
    process_data_with validate store d =
      ⟨false, ["Error processing data: " ++ e]⟩ := by
  simp [process_data_with, h]

/-- C3 witness: with a validation step that throws `boom` on the sample
record, `process_data_with` returns `false` and prints the error line. -/
theorem C3_witness :
    process_data_with (fun _ => Except.error "boom") store_dataE sample_data =
      ⟨false, ["Error processing data: " ++ "boom"]⟩ :=
  C3_exceptions_caught (fun _ => Except.error "boom") store_dataE sample_data
    "boom" rfl

/-- C4: with the script's concrete callees, `process_data d` equals
`validate_data d` for every `d`; the second conjunct shows the try body
always returns normally (with the validation result), so the exception
branch is unreachable. -/
theorem C4_process_data_eq_validate_data (d : Data) :
    process_data d = validate_data d ∧
    processBody validate_dataE store_dataE d = .ok (validate_data d) :=
  ⟨process_data_eq_validate d, processBody_concrete d⟩

/-- C5: the driver block's sample record carries the three required keys,
its processing succeeds, and the script's sole printed line is
`Processing succeeded`. -/
theorem C5_driver_block :
    sample_data.containsKey "id" = true ∧
    sample_data.containsKey "timestamp" = true ∧
    sample_data.containsKey "payload" = true ∧
    process_data sample_data = true ∧
    main_output = ["Processing succeeded"] := by
  refine ⟨rfl, rfl, rfl, rfl, ?_⟩
  decide

/-- C6: `validate_data` depends only on the key set of its argument: two
records whose key lists contain the same keys (values arbitrary) yield the
same boolean. -/
theorem C6_validate_data_keys_only (d1 d2 : Data)
    (h : ∀ k, k ∈ d1.keys ↔ k ∈ d2.keys) :
    validate_data d1 = validate_data d2 := by
  have hc : ∀ k, d1.containsKey k = d2.containsKey k := by
    intro k
    have hiff : d1.containsKey k = true ↔ d2.containsKey k = true :=
      (containsKey_iff d1 k).trans ((h k).trans (containsKey_iff d2 k).symm)
    cases hb1 : d1.containsKey k <;> cases hb2 : d2.containsKey k <;>
      simp_all
  simp [validate_data, hc]

/-- C6 witness: the sample record and a record with the same keys but
entirely different values validate identically. -/
theorem C6_witness :
    validate_data sample_data =
      validate_data [("id", Value.nat 0), ("timestamp", Value.nat 1),
        ("payload", Value.str "other")] :=
  C6_validate_data_keys_only sample_data
    [("id", Value.nat 0), ("timestamp", Value.nat 1),
      ("payload", Value.str "other")]
    (fun _ => Iff.rfl)

/-- C7: `store_data` is a stub: it returns `None` for every input, raises no
exception, and leaves the heap untouched. -/
theorem C7_store_data_stub (d : Data) (σ : Nat → Data) (a : Nat) :
    store_data d = () ∧ store_dataE d = Except.ok () ∧
    store_dataS σ a = ((), σ) :=
  ⟨rfl, rfl, rfl⟩

/-- C8: `process_data` is deterministic: two runs on equal inputs return the
same boolean. -/
theorem C8_process_data_deterministic (d1 d2 : Data) (h : d1 = d2) :
    process_data d1 = process_data d2 := by
  rw [h]

/-- C8 witness: two runs on the sample record agree. -/
theorem C8_witness :
    sample_data = sample_data ∧
    process_data sample_data = process_data sample_data :=
  ⟨rfl, C8_process_data_deterministic sample_data sample_data rfl⟩

/-- C9: no operation mutates its input: in the heap-passing view,
`process_data`, `validate_data` and `store_data` all return the heap they
received, so the argument record at any address is unchanged by the call. -/
theorem C9_no_mutation (σ : Nat → Data) (a : Nat) :
    (process_dataS σ a).2 = σ ∧ (validate_dataS σ a).2 = σ ∧
    (store_dataS σ a).2 = σ := by
  refine ⟨?_, rfl, rfl⟩
  unfold process_dataS validate_dataS store_dataS
  by_cases h : validate_data (σ a) = true <;> simp [h]
